import Mathlib

/-!
Verification of the SkyDB registry-entry subsystem of the gundb-skynet-js
client library. JavaScript values, the registry data model and the
operations under test are shallowly embedded below; machine integers
(uint64 revisions) are modelled as `Nat` with explicit bounds, fallible
code returns `Except`, and network effects are made explicit as traces of
issued calls. Capabilities provided by modules outside the analysed
sources (crypto, skylink codecs, JSON parsing, the HTTP transport) are
taken as explicit parameters, mirroring the library's own interface
boundaries.
-/

/-- A model of JavaScript runtime values as they occur in the analysed
code: `undefined`, `null`, booleans, numbers (restricted to integers; the
analysed code only compares and stores small integral numbers), strings,
arrays, plain objects (ordered field lists) and `Uint8Array` byte
arrays. -/
inductive JSValue where
  | vUndefined : JSValue
  | vNull : JSValue
  | vBool (b : Bool) : JSValue
  | vNum (n : Int) : JSValue
  | vStr (s : String) : JSValue
  | vArr (elems : List JSValue) : JSValue
  | vObj (fields : List (String × JSValue)) : JSValue
  | vBytes (bytes : List Nat) : JSValue

/-- The strict comparison `value === null` as used by the analysed code. -/
def isNull : JSValue → Bool
  | .vNull => true
  | _ => false

/-- JavaScript `typeof`: note `typeof null`, arrays and `Uint8Array`s are
all "object". -/
def jsTypeof : JSValue → String
  | .vUndefined => "undefined"
  | .vNull => "object"
  | .vBool _ => "boolean"
  | .vNum _ => "number"
  | .vStr _ => "string"
  | .vArr _ => "object"
  | .vObj _ => "object"
  | .vBytes _ => "object"

/-- JavaScript truthiness: `undefined`, `null`, `false`, `0` and the empty
string are falsy; all objects and arrays are truthy. -/
def jsTruthy : JSValue → Bool
  | .vUndefined => false
  | .vNull => false
  | .vBool b => b
  | .vNum n => n != 0
  | .vStr s => s != ""
  | .vArr _ => true
  | .vObj _ => true
  | .vBytes _ => true

/-- Property access `value[key]` on the object values the analysed code
reads fields of; a missing property yields `undefined`. -/
def objGet : JSValue → String → JSValue
  | .vObj fields, key =>
    match fields.find? (fun f => f.1 == key) with
    | some f => f.2
    | none => .vUndefined
  | _, _ => .vUndefined

/-- A registry entry as built and consumed by skydb.js: a data key, raw
byte data and a uint64 revision (JS `BigInt`, bounded by the explicit
`MAX_REVISION` checks in the code, so modelled as `Nat`). -/
structure RegistryEntry where
  dataKey : String
  data : List Nat
  revision : Nat
deriving Repr, DecidableEq

/-- The distinct failure exits of the embedded code. Each constructor
stands for one `throw` site; the constructor name abbreviates the thrown
message. -/
inductive SkyErr where
  /-- `throwValidationError(name, ..., expected)` -/
  | validationFailed (name : String) (expected : String)
  /-- "Object ... contains unexpected property ..." from validateOptionalObject -/
  | unexpectedOption (name : String) (property : String)
  /-- "Current entry already has maximum allowed revision, ..." -/
  | revisionOverflow
  /-- "File data for the entry at data key ... is not JSON." -/
  | notJSON (dataKey : String)
  /-- "File data _data for the entry at data key ... is not JSON." -/
  | innerNotJSON (dataKey : String)
  /-- "Could not parse skynet-proof header as JSON" -/
  | proofParseFailed
  /-- "Expected returned skylink to be the same as input data link" -/
  | proofSameSkylinkExpected
  /-- "Expected skynet-proof header to be empty for data link" -/
  | proofHeaderNonEmpty
  /-- "Expected returned skylink to be different from input entry link" -/
  | proofDifferentSkylinkExpected
  /-- a failure inside registry.validateRegistryProof (chain walking) -/
  | proofChainFailed (msg : String)
  /-- "unexpected response status code ..." in the legacy registry client -/
  | unexpectedStatus (status : Nat)
deriving Repr, DecidableEq

-- ==============================
-- Revision Tracker (utils/number.js, skydb.js)
-- ==============================

/-- `MAX_REVISION = BigInt("18446744073709551615")`, the maximum uint64. -/
def MAX_REVISION : Nat := 18446744073709551615

/-- `getNextRevisionFromEntry` from skydb.js: 0 for a missing entry, else
the prior revision plus one, failing if the result would exceed
`MAX_REVISION`. -/
def getNextRevisionFromEntry (entry : Option RegistryEntry) : Except SkyErr Nat :=
  let revision : Nat :=
    match entry with
    | none => 0
    | some e => e.revision + 1
  if revision > MAX_REVISION then
    .error .revisionOverflow
  else
    .ok revision

-- ==============================
-- trimPrefix / trimSuffix loops (utils/string.ts)
-- ==============================

/-- The loop-top break test `limit !== undefined && limit <= 0`. The JS
numeric limit is modelled as an integer. -/
def limitExhausted : Option Int → Bool
  | none => false
  | some l => l ≤ 0

/-- The loop-bottom update `if (limit) { limit -= 1 }`: a truthy (nonzero)
limit is decremented, otherwise left unchanged. -/
def decLimit : Option Int → Option Int
  | none => none
  | some l => if l != 0 then some (l - 1) else some l

/-- The `while (str.startsWith(prefix))` loop of `trimPrefix`, with the JS
string modelled as a character list and an explicit fuel bound: `some`
means the loop exited with the given string within `fuel` iterations,
`none` that it was still running. -/
def trimPrefixLoop (pre : List Char) : Nat → List Char → Option Int → Option (List Char)
  | 0, _, _ => none
  | fuel + 1, str, limit =>
    if pre.isPrefixOf str then
      if limitExhausted limit then
        some str
      else
        trimPrefixLoop pre fuel (str.drop pre.length) (decLimit limit)
    else
      some str

/-- The `while (str.endsWith(suffix))` loop of `trimSuffix`, with
`str = str.substring(0, str.length - suffix.length)` as the body. -/
def trimSuffixLoop (suf : List Char) : Nat → List Char → Option Int → Option (List Char)
  | 0, _, _ => none
  | fuel + 1, str, limit =>
    if suf.isSuffixOf str then
      if limitExhausted limit then
        some str
      else
        trimSuffixLoop suf fuel (str.take (str.length - suf.length)) (decLimit limit)
    else
      some str

-- ==============================
-- C1: next-revision computation
-- ==============================

/-- C1: `getNextRevisionFromEntry` returns 0 when the prior entry is null,
returns r + 1 when the prior entry has revision r < 2^64 - 1, and fails
with the revision-overflow error when the prior revision equals
MAX_REVISION = 2^64 - 1. -/
theorem getNextRevisionFromEntry_spec (e : RegistryEntry) :
    getNextRevisionFromEntry none = .ok 0 ∧
    (e.revision < MAX_REVISION →
      getNextRevisionFromEntry (some e) = .ok (e.revision + 1)) ∧
    (e.revision = MAX_REVISION →
      getNextRevisionFromEntry (some e) = .error .revisionOverflow) := by
  refine ⟨rfl, fun h => ?_, fun h => ?_⟩
  · have hle : ¬ e.revision + 1 > MAX_REVISION := by omega
    simp [getNextRevisionFromEntry, hle]
  · have hgt : e.revision + 1 > MAX_REVISION := by omega
    simp [getNextRevisionFromEntry, hgt]

/-- Witness for C1 at concrete revisions 5 and MAX_REVISION. -/
theorem getNextRevisionFromEntry_spec_witness :
    getNextRevisionFromEntry (some ⟨"key", [], 5⟩) = .ok 6 ∧
    getNextRevisionFromEntry (some ⟨"key", [], MAX_REVISION⟩) = .error .revisionOverflow :=
  ⟨(getNextRevisionFromEntry_spec ⟨"key", [], 5⟩).2.1 (by norm_num [MAX_REVISION]),
   (getNextRevisionFromEntry_spec ⟨"key", [], MAX_REVISION⟩).2.2 rfl⟩

-- ==============================
-- C10: termination of the trim loops
-- ==============================

/-- With a non-empty prefix every iteration strictly shortens the string,
so the loop exits within `str.length + 1` iterations. -/
theorem trimPrefixLoop_isSome_of_ne_nil (pre : List Char) (hpre : pre ≠ []) :
    ∀ (fuel : Nat) (str : List Char) (limit : Option Int), str.length < fuel →
      (trimPrefixLoop pre fuel str limit).isSome := by
  intro fuel
  induction fuel with
  | zero => intro str limit h; omega
  | succ n ih =>
    intro str limit h
    rw [trimPrefixLoop]
    by_cases hb : pre.isPrefixOf str
    · have hlen : pre.length ≤ str.length :=
        (List.isPrefixOf_iff_prefix.mp hb).length_le
      have hpos : 0 < pre.length := List.length_pos.mpr hpre
      by_cases hl : limitExhausted limit
      · simp [hb, hl]
      · have : (str.drop pre.length).length < n := by
          rw [List.length_drop]; omega
        simpa [hb, hl] using ih (str.drop pre.length) (decLimit limit) this
    · simp [hb]

/-- With a supplied limit the loop exits within `limit + 1` iterations:
each iteration either hits the break test or decrements the limit. -/
theorem trimPrefixLoop_isSome_of_limit (pre : List Char) :
    ∀ (fuel : Nat) (str : List Char) (l : Int), l.toNat < fuel →
      (trimPrefixLoop pre fuel str (some l)).isSome := by
  intro fuel
  induction fuel with
  | zero => intro str l h; omega
  | succ n ih =>
    intro str l h
    rw [trimPrefixLoop]
    by_cases hb : pre.isPrefixOf str
    · by_cases hl : limitExhausted (some l)
      · simp [hb, hl]
      · have hpos : 0 < l := by
          simp [limitExhausted] at hl; omega
        have hdec : decLimit (some l) = some (l - 1) := by
          simp [decLimit]; omega
        have : (l - 1).toNat < n := by omega
        simpa [hb, hl, hdec] using ih (str.drop pre.length) (l - 1) this
    · simp [hb]

/-- With an empty prefix and no limit the loop body leaves the state
unchanged and the guard stays true, so no amount of fuel makes it exit. -/
theorem trimPrefixLoop_none_of_nil :
    ∀ (fuel : Nat) (str : List Char), trimPrefixLoop [] fuel str none = none := by
  intro fuel
  induction fuel with
  | zero => intro str; rfl
  | succ n ih =>
    intro str
    rw [trimPrefixLoop]
    simpa [limitExhausted, decLimit] using ih str

/-- Suffix version of `trimPrefixLoop_isSome_of_ne_nil`. -/
theorem trimSuffixLoop_isSome_of_ne_nil (suf : List Char) (hsuf : suf ≠ []) :
    ∀ (fuel : Nat) (str : List Char) (limit : Option Int), str.length < fuel →
      (trimSuffixLoop suf fuel str limit).isSome := by
  intro fuel
  induction fuel with
  | zero => intro str limit h; omega
  | succ n ih =>
    intro str limit h
    rw [trimSuffixLoop]
    by_cases hb : suf.isSuffixOf str
    · have hlen : suf.length ≤ str.length :=
        (List.isSuffixOf_iff_suffix.mp hb).length_le
      have hpos : 0 < suf.length := List.length_pos.mpr hsuf
      by_cases hl : limitExhausted limit
      · simp [hb, hl]
      · have : (str.take (str.length - suf.length)).length < n := by
          rw [List.length_take]; omega
        simpa [hb, hl] using ih (str.take (str.length - suf.length)) (decLimit limit) this
    · simp [hb]

/-- Suffix version of `trimPrefixLoop_isSome_of_limit`. -/
theorem trimSuffixLoop_isSome_of_limit (suf : List Char) :
    ∀ (fuel : Nat) (str : List Char) (l : Int), l.toNat < fuel →
      (trimSuffixLoop suf fuel str (some l)).isSome := by
  intro fuel
  induction fuel with
  | zero => intro str l h; omega
  | succ n ih =>
    intro str l h
    rw [trimSuffixLoop]
    by_cases hb : suf.isSuffixOf str
    · by_cases hl : limitExhausted (some l)
      · simp [hb, hl]
      · have hpos : 0 < l := by
          simp [limitExhausted] at hl; omega
        have hdec : decLimit (some l) = some (l - 1) := by
          simp [decLimit]; omega
        have : (l - 1).toNat < n := by omega
        simpa [hb, hl, hdec] using ih (str.take (str.length - suf.length)) (l - 1) this
    · simp [hb]

/-- Suffix version of `trimPrefixLoop_none_of_nil`. -/
theorem trimSuffixLoop_none_of_nil :
    ∀ (fuel : Nat) (str : List Char), trimSuffixLoop [] fuel str none = none := by
  intro fuel
  induction fuel with
  | zero => intro str; rfl
  | succ n ih =>
    intro str
    rw [trimSuffixLoop]
    simpa [limitExhausted, decLimit] using ih str

/-- C10: the trimPrefix/trimSuffix loops terminate whenever the
prefix/suffix is non-empty (within `str.length + 1` iterations, any
limit) or a limit argument is supplied (within `limit + 1` iterations,
any prefix); with an empty prefix/suffix and no limit they never exit,
whatever fuel they are given. -/
theorem trim_loops_termination_spec (pre suf str : List Char) (limit : Option Int)
    (l : Int) (fuel : Nat) :
    (pre ≠ [] → str.length < fuel → (trimPrefixLoop pre fuel str limit).isSome) ∧
    (l.toNat < fuel → (trimPrefixLoop pre fuel str (some l)).isSome) ∧
    (trimPrefixLoop [] fuel str none = none) ∧
    (suf ≠ [] → str.length < fuel → (trimSuffixLoop suf fuel str limit).isSome) ∧
    (l.toNat < fuel → (trimSuffixLoop suf fuel str (some l)).isSome) ∧
    (trimSuffixLoop [] fuel str none = none) :=
  ⟨fun hp h => trimPrefixLoop_isSome_of_ne_nil pre hp fuel str limit h,
   fun h => trimPrefixLoop_isSome_of_limit pre fuel str l h,
   trimPrefixLoop_none_of_nil fuel str,
   fun hs h => trimSuffixLoop_isSome_of_ne_nil suf hs fuel str limit h,
   fun h => trimSuffixLoop_isSome_of_limit suf fuel str l h,
   trimSuffixLoop_none_of_nil fuel str⟩

/-- Witness for C10 on concrete strings: trimming "ab" off "ababx" with no
limit, trimming with limit 2, and the empty-pattern divergence at fuel
100. -/
theorem trim_loops_termination_spec_witness :
    (trimPrefixLoop "ab".toList 6 "ababx".toList none).isSome ∧
    (trimPrefixLoop "ab".toList 6 "ababx".toList (some 2)).isSome ∧
    trimPrefixLoop [] 100 "ababx".toList none = none ∧
    (trimSuffixLoop "ba".toList 6 "xbaba".toList none).isSome ∧
    (trimSuffixLoop "ba".toList 6 "xbaba".toList (some 2)).isSome ∧
    trimSuffixLoop [] 100 "xbaba".toList none = none := by
  have h := trim_loops_termination_spec "ab".toList "ba".toList "ababx".toList none 2 6
  have h2 := trim_loops_termination_spec "ab".toList "ba".toList "xbaba".toList none 2 6
  have h3 := trim_loops_termination_spec "ab".toList "ba".toList "ababx".toList none 2 100
  have h4 := trim_loops_termination_spec "ab".toList "ba".toList "xbaba".toList none 2 100
  exact ⟨h.1 (by decide) (by decide), h.2.1 (by decide), h3.2.2.1,
    h2.2.2.2.1 (by decide) (by decide), h2.2.2.2.2.1 (by decide), h4.2.2.2.2.2⟩


-- ==============================
-- Registry Proof Validator (download.js: validateRegistryProofResponse)
-- ==============================

/-- Modelled from the spec: the capabilities `validateRegistryProofResponse`
consumes that live outside the analysed sources — `isSkylinkV1` (skylink/sia),
`JSON.parse` (the host runtime, `none` when parsing throws) and
`validateRegistryProof` (registry.js), the proof-chain walker invoked for
resolver links. They are abstract parameters here; the claims under test
only concern the branch structure around them. -/
structure ProofCaps where
  isSkylinkV1 : String → Bool
  parseJSON : String → Option JSValue
  validateRegistryProofChain : JSValue → String → String → Except SkyErr Unit

/-- Truthiness of the `skynet-proof` header value (`string | undefined`):
falsy when absent or the empty string. -/
def headerTruthy : Option String → Bool
  | none => false
  | some s => s != ""

/-- The try/catch block at the top of `validateRegistryProofResponse`:
a falsy header leaves `proofArray = []`; otherwise the header is parsed
as JSON, and both a parse exception and a falsy parse result are turned
into the parse error. -/
def parseProofHeader (caps : ProofCaps) (proof : Option String) : Except SkyErr JSValue :=
  match proof with
  | none => .ok (.vArr [])
  | some s =>
    if s = "" then .ok (.vArr [])
    else
      match caps.parseJSON s with
      | none => .error .proofParseFailed
      | some v => if jsTruthy v then .ok v else .error .proofParseFailed

/-- `validateRegistryProofResponse(inputSkylink, dataLink, proof)` from
download.js: parse the header, then for a V1 (direct content) input
require the returned link to equal the input and the header to be falsy;
for an entry-link input require the returned link to differ and hand the
parsed proof to the chain walker. -/
def validateRegistryProofResponse (caps : ProofCaps) (inputSkylink dataLink : String)
    (proof : Option String) : Except SkyErr Unit :=
  match parseProofHeader caps proof with
  | .error e => .error e
  | .ok proofArray =>
    if caps.isSkylinkV1 inputSkylink then
      if inputSkylink ≠ dataLink then
        .error .proofSameSkylinkExpected
      else if headerTruthy proof then
        .error .proofHeaderNonEmpty
      else
        .ok ()
    else
      if inputSkylink = dataLink then
        .error .proofDifferentSkylinkExpected
      else
        caps.validateRegistryProofChain proofArray inputSkylink dataLink

/-- The `skynet-proof` header is well formed: either falsy (absent or
empty string) or JSON that parses to a truthy value. -/
def proofHeaderWellFormed (caps : ProofCaps) (proof : Option String) : Prop :=
  headerTruthy proof = false ∨
    (∃ s v, proof = some s ∧ caps.parseJSON s = some v ∧ jsTruthy v = true)

/-- A well-formed header always gets past the parse step. -/
theorem parseProofHeader_ok_of_wellFormed (caps : ProofCaps) (proof : Option String)
    (h : proofHeaderWellFormed caps proof) :
    ∃ v, parseProofHeader caps proof = .ok v := by
  rcases h with h | ⟨s, v, hs, hp, ht⟩
  · cases proof with
    | none => exact ⟨.vArr [], rfl⟩
    | some s =>
      have hs : s = "" := by simpa [headerTruthy] using h
      exact ⟨.vArr [], by simp [parseProofHeader, hs]⟩
  · subst hs
    by_cases hne : s = ""
    · exact ⟨.vArr [], by simp [parseProofHeader, hne]⟩
    · exact ⟨v, by simp [parseProofHeader, hne, hp, ht]⟩

/-- C3: for a V1 (direct content) input skylink, validation succeeds if
and only if the returned data link equals the input and the proof header
is absent/empty; a differing returned link fails with the mismatch error,
and a non-empty (well-formed) proof fails with the unexpected-proof
error. -/
theorem validateRegistryProofResponse_v1_spec (caps : ProofCaps)
    (inputSkylink dataLink : String) (proof : Option String)
    (hV1 : caps.isSkylinkV1 inputSkylink = true) :
    (validateRegistryProofResponse caps inputSkylink dataLink proof = .ok () ↔
      (dataLink = inputSkylink ∧ headerTruthy proof = false)) ∧
    (dataLink ≠ inputSkylink → proofHeaderWellFormed caps proof →
      validateRegistryProofResponse caps inputSkylink dataLink proof =
        .error .proofSameSkylinkExpected) ∧
    (dataLink = inputSkylink → headerTruthy proof = true →
      proofHeaderWellFormed caps proof →
      validateRegistryProofResponse caps inputSkylink dataLink proof =
        .error .proofHeaderNonEmpty) := by
  refine ⟨⟨fun hok => ?_, fun h => ?_⟩, fun hne hwf => ?_, fun heq hpr hwf => ?_⟩
  · unfold validateRegistryProofResponse at hok
    cases hpp : parseProofHeader caps proof with
    | error e => simp [hpp] at hok
    | ok v =>
      simp only [hpp, hV1, if_true] at hok
      by_cases hd : inputSkylink ≠ dataLink
      · simp [hd] at hok
      · push_neg at hd
        by_cases hh : headerTruthy proof
        · simp [hd, hh] at hok
        · exact ⟨hd.symm, by simpa using hh⟩
  · rcases h with ⟨hd, hh⟩
    subst hd
    rcases parseProofHeader_ok_of_wellFormed caps proof (.inl hh) with ⟨v, hpp⟩
    simp [validateRegistryProofResponse, hpp, hV1, hh]
  · rcases parseProofHeader_ok_of_wellFormed caps proof hwf with ⟨v, hpp⟩
    have hne' : inputSkylink ≠ dataLink := fun h => hne h.symm
    simp [validateRegistryProofResponse, hpp, hV1, hne']
  · rcases parseProofHeader_ok_of_wellFormed caps proof hwf with ⟨v, hpp⟩
    simp [validateRegistryProofResponse, hpp, hV1, heq, hpr]

/-- Witness for C3: a concrete V1 skylink with matching data link; success
with an absent proof, mismatch failure on a different link, and
unexpected-proof failure on a non-empty parseable header. -/
theorem validateRegistryProofResponse_v1_spec_witness :
    (validateRegistryProofResponse
        ⟨fun _ => true, fun _ => none, fun _ _ _ => .ok ()⟩ "AAA" "AAA" none = .ok ()) ∧
    (validateRegistryProofResponse
        ⟨fun _ => true, fun _ => some (.vArr [.vNum 1]), fun _ _ _ => .ok ()⟩
        "AAA" "BBB" (some "[1]") = .error .proofSameSkylinkExpected) ∧
    (validateRegistryProofResponse
        ⟨fun _ => true, fun _ => some (.vArr [.vNum 1]), fun _ _ _ => .ok ()⟩
        "AAA" "AAA" (some "[1]") = .error .proofHeaderNonEmpty) := by
  refine ⟨?_, ?_, ?_⟩
  · exact (validateRegistryProofResponse_v1_spec
      ⟨fun _ => true, fun _ => none, fun _ _ _ => .ok ()⟩ "AAA" "AAA" none rfl).1.mpr
      ⟨rfl, rfl⟩
  · exact (validateRegistryProofResponse_v1_spec
      ⟨fun _ => true, fun _ => some (.vArr [.vNum 1]), fun _ _ _ => .ok ()⟩
      "AAA" "BBB" (some "[1]") rfl).2.1 (by decide)
      (.inr ⟨"[1]", .vArr [.vNum 1], rfl, rfl, rfl⟩)
  · exact (validateRegistryProofResponse_v1_spec
      ⟨fun _ => true, fun _ => some (.vArr [.vNum 1]), fun _ _ _ => .ok ()⟩
      "AAA" "AAA" (some "[1]") rfl).2.2 rfl rfl
      (.inr ⟨"[1]", .vArr [.vNum 1], rfl, rfl, rfl⟩)

/-- C4: for an entry-link (non-V1) input skylink, a returned data link
equal to the input never validates: with a well-formed header it fails
with the mismatch error, and it fails (with some error) in every case. -/
theorem validateRegistryProofResponse_entryLink_spec (caps : ProofCaps)
    (inputSkylink dataLink : String) (proof : Option String)
    (hV1 : caps.isSkylinkV1 inputSkylink = false)
    (hEq : dataLink = inputSkylink) :
    validateRegistryProofResponse caps inputSkylink dataLink proof ≠ .ok () ∧
    (proofHeaderWellFormed caps proof →
      validateRegistryProofResponse caps inputSkylink dataLink proof =
        .error .proofDifferentSkylinkExpected) := by
  subst hEq
  constructor
  · intro hok
    unfold validateRegistryProofResponse at hok
    cases hpp : parseProofHeader caps proof with
    | error e => simp [hpp] at hok
    | ok v => simp [hpp, hV1] at hok
  · intro hwf
    rcases parseProofHeader_ok_of_wellFormed caps proof hwf with ⟨v, hpp⟩
    simp [validateRegistryProofResponse, hpp, hV1]

/-- Witness for C4: a concrete entry link resolving to itself is rejected
with the mismatch error, and never validates. -/
theorem validateRegistryProofResponse_entryLink_spec_witness :
    validateRegistryProofResponse
      ⟨fun _ => false, fun _ => none, fun _ _ _ => .ok ()⟩ "EEE" "EEE" none ≠ .ok () ∧
    validateRegistryProofResponse
      ⟨fun _ => false, fun _ => none, fun _ _ _ => .ok ()⟩ "EEE" "EEE" none =
        .error .proofDifferentSkylinkExpected := by
  have h := validateRegistryProofResponse_entryLink_spec
    ⟨fun _ => false, fun _ => none, fun _ _ _ => .ok ()⟩ "EEE" "EEE" none rfl rfl
  exact ⟨h.1, h.2 (.inl rfl)⟩

-- ==============================
-- Legacy registry client (lookupRegistry / updateRegistry)
-- ==============================

/-- The fields the legacy `lookupRegistry` reads off `response.data`
(`Tweak`, `Data`, `Revision`, `Signature`). The Buffer conversions are
kept abstract: the tweak is already the byte list `Buffer.from` yields,
the revision is the raw string handed to `parseInt(-, 10)`. -/
structure LegacyResponseData where
  tweakField : List Nat
  dataField : String
  revisionField : String
  signatureField : String
deriving Repr, DecidableEq

/-- An axios response as the legacy client sees it. -/
structure AxiosResponse where
  status : Nat
  data : LegacyResponseData
deriving Repr, DecidableEq

/-- `RegistryValue` of the legacy client. -/
structure RegistryValue where
  tweak : List Nat
  data : String
  revision : Int
deriving Repr, DecidableEq

/-- `SignedRegistryValue` of the legacy client. -/
structure SignedRegistryValue where
  value : RegistryValue
  signature : String
deriving Repr, DecidableEq

/-- The axios convention the code's catch blocks comment on: the request
promise rejects for every response whose status is not in [200, 300), as
well as for network-level failures; a fulfilled promise carries the
response. An outcome is therefore either a rejection (with its message)
or a response with a 2xx status. -/
def axiosOutcome (resp : AxiosResponse) : Except String AxiosResponse :=
  if 200 ≤ resp.status ∧ resp.status < 300 then
    .ok resp
  else
    .error ("Request failed with status code " ++ toString resp.status)

/-- `lookupRegistry` from the legacy registry module: any rejection of
`executeRequest` is caught and turned into `null`; a fulfilled response
yields the signed value on status 200 and an unexpected-status error
otherwise. `parseInt10` abstracts the host's `parseInt(-, 10)`. -/
def lookupRegistry (parseInt10 : String → Int)
    (requestOutcome : Except String AxiosResponse) :
    Except SkyErr (Option SignedRegistryValue) :=
  match requestOutcome with
  | .error _ => .ok none
  | .ok response =>
    if response.status = 200 then
      .ok (some
        { value :=
            { tweak := response.data.tweakField,
              data := response.data.dataField,
              revision := parseInt10 response.data.revisionField },
          signature := response.data.signatureField })
    else
      .error (.unexpectedStatus response.status)

/-- `updateRegistry` from the legacy registry module: any rejection is
caught and turned into `false`; a fulfilled response yields `true` on
status 204 and an unexpected-status error otherwise. -/
def updateRegistry (requestOutcome : Except String AxiosResponse) :
    Except SkyErr Bool :=
  match requestOutcome with
  | .error _ => .ok false
  | .ok response =>
    if response.status = 204 then
      .ok true
    else
      .error (.unexpectedStatus response.status)

/-- Counterexample to C8: a portal server-error response (status 500) is
not a "not found" response, yet the legacy registry client swallows it:
the axios promise rejects, the catch block returns null for the lookup
and false for the update, and no failure propagates to the caller. -/
theorem lookupRegistry_swallows_serverError :
    lookupRegistry (fun _ => 0) (axiosOutcome ⟨500, ⟨[], "", "", ""⟩⟩) = .ok none ∧
    updateRegistry (axiosOutcome ⟨500, ⟨[], "", "", ""⟩⟩) = .ok false := by
  constructor <;> rfl

/-- C8 as amended: the legacy registry client converts EVERY rejected
request — any network failure and any non-2xx portal response, "not
found" included — into the null-entry result (lookup) or `false`
(update); the only errors it raises itself are for fulfilled 2xx
responses whose status is not exactly 200 (lookup) or 204 (update). -/
theorem legacyRegistry_errorHandling_spec (parseInt10 : String → Int)
    (err : String) (response : AxiosResponse) :
    lookupRegistry parseInt10 (.error err) = .ok none ∧
    updateRegistry (.error err) = .ok false ∧
    (response.status = 200 →
      lookupRegistry parseInt10 (.ok response) = .ok (some
        { value :=
            { tweak := response.data.tweakField,
              data := response.data.dataField,
              revision := parseInt10 response.data.revisionField },
          signature := response.data.signatureField })) ∧
    (response.status ≠ 200 →
      lookupRegistry parseInt10 (.ok response) =
        .error (.unexpectedStatus response.status)) ∧
    (response.status = 204 → updateRegistry (.ok response) = .ok true) ∧
    (response.status ≠ 204 →
      updateRegistry (.ok response) = .error (.unexpectedStatus response.status)) := by
  refine ⟨rfl, rfl, fun h => ?_, fun h => ?_, fun h => ?_, fun h => ?_⟩ <;>
    simp [lookupRegistry, updateRegistry, h]

/-- Witness for the amended C8 at concrete statuses 200, 201, 204. -/
theorem legacyRegistry_errorHandling_spec_witness :
    lookupRegistry (fun _ => 7) (.error "network down") = .ok none ∧
    lookupRegistry (fun _ => 7) (.ok ⟨200, ⟨[1], "d", "5", "sig"⟩⟩) =
      .ok (some ⟨⟨[1], "d", 7⟩, "sig"⟩) ∧
    lookupRegistry (fun _ => 7) (.ok ⟨201, ⟨[], "", "", ""⟩⟩) =
      .error (.unexpectedStatus 201) ∧
    updateRegistry (.ok ⟨204, ⟨[], "", "", ""⟩⟩) = .ok true ∧
    updateRegistry (.ok ⟨201, ⟨[], "", "", ""⟩⟩) = .error (.unexpectedStatus 201) := by
  have h200 := legacyRegistry_errorHandling_spec (fun _ => 7) "network down"
    ⟨200, ⟨[1], "d", "5", "sig"⟩⟩
  have h201 := legacyRegistry_errorHandling_spec (fun _ => 7) "network down"
    ⟨201, ⟨[], "", "", ""⟩⟩
  have h204 := legacyRegistry_errorHandling_spec (fun _ => 7) "network down"
    ⟨204, ⟨[], "", "", ""⟩⟩
  exact ⟨h200.1, h200.2.2.1 rfl, h201.2.2.2.1 (by decide),
    h204.2.2.2.2.1 rfl, h201.2.2.2.2.2 (by decide)⟩

-- ==============================
-- Option merging (C9)
-- ==============================

/-- Lookup of a key in a JS object literal modelled as an ordered field
list. -/
def lookupKey (fields : List (String × JSValue)) (key : String) : Option JSValue :=
  (fields.find? (fun f => f.1 == key)).map Prod.snd

/-- The value a key has after object-spreading the given layers in order
(`{...l1, ...l2, ...}`): a later layer that carries the key wins. -/
def objectSpreadLookup (layers : List (List (String × JSValue))) (key : String) :
    Option JSValue :=
  layers.foldl
    (fun acc layer =>
      match lookupKey layer key with
      | some v => some v
      | none => acc)
    none

/-- The merge in the legacy `lookupRegistry`/`updateRegistry`:
`{...defaultRegistryOptions, ...customOptions, ...this.customOptions}` —
the client-level options are spread last. -/
def legacyRegistryOpts (defaults callOpts clientOpts : List (String × JSValue))
    (key : String) : Option JSValue :=
  objectSpreadLookup [defaults, callOpts, clientOpts] key

/-- The merge in the SkyDB engine's `getJSON` (and the other skydb.js
operations): `{...DEFAULT_GET_JSON_OPTIONS, ...this.customOptions,
...customOptions}` — the per-call options are spread last. -/
def skydbEngineOpts (defaults clientOpts callOpts : List (String × JSValue))
    (key : String) : Option JSValue :=
  objectSpreadLookup [defaults, clientOpts, callOpts] key

/-- C9: when the client-level options and the per-call options both carry
a key, the legacy registry client resolves it to the client-level value
(per-call value ignored), while the SkyDB engine resolves it to the
per-call value — opposite precedences. -/
theorem optionPrecedence_spec (defaults clientOpts callOpts : List (String × JSValue))
    (key : String) (v w : JSValue)
    (hclient : lookupKey clientOpts key = some v)
    (hcall : lookupKey callOpts key = some w) :
    legacyRegistryOpts defaults callOpts clientOpts key = some v ∧
    skydbEngineOpts defaults clientOpts callOpts key = some w := by
  constructor <;>
    simp [legacyRegistryOpts, skydbEngineOpts, objectSpreadLookup, hclient, hcall]

/-- Witness for C9 at a concrete key set by both layers. -/
theorem optionPrecedence_spec_witness :
    legacyRegistryOpts [("timeout", .vNum 1)] [("timeout", .vNum 3)]
      [("timeout", .vNum 2)] "timeout" = some (.vNum 2) ∧
    skydbEngineOpts [("timeout", .vNum 1)] [("timeout", .vNum 2)]
      [("timeout", .vNum 3)] "timeout" = some (.vNum 3) :=
  optionPrecedence_spec [("timeout", .vNum 1)] [("timeout", .vNum 2)]
    [("timeout", .vNum 3)] "timeout" (.vNum 2) (.vNum 3) rfl rfl

-- ==============================
-- SkyDB Engine read/write path (skydb.js)
-- ==============================

/-- Modelled from the spec: the skylink-size constants live in
skylink/sia.js, which is not among the analysed sources. A raw skylink is
a fixed-length byte encoding (2-byte bitfield plus 32-byte Merkle root =
34 bytes); the legacy encoding is its 46-character base64 text form. -/
def RAW_SKYLINK_SIZE : Nat := 34

/-- Modelled from the spec: the byte length of a base64-encoded skylink
string stored directly as legacy entry data. -/
def BASE64_ENCODED_SKYLINK_SIZE : Nat := 46

/-- Modelled from the spec: the deletion sentinel is the well-known
all-zero raw-skylink byte sequence (`EMPTY_SKYLINK` in skylink/sia.js);
entries whose data equals it are treated as absent by read paths. -/
def EMPTY_SKYLINK : List Nat := List.replicate RAW_SKYLINK_SIZE 0

/-- Modelled from the spec: `DELETION_ENTRY_DATA` (skydb_v2, not among the
analysed sources) is the deletion sentinel written by the delete
operations, i.e. the empty skylink. -/
def DELETION_ENTRY_DATA : List Nat := EMPTY_SKYLINK

/-- Modelled from the spec: pure codec capabilities consumed by the SkyDB
engine that live outside the analysed sources — `encodeSkylinkBase64`
(utils/encoding), `formatSkylink` (skylink/format) — plus the Buffer-based
byte-to-UTF-8 decoding used by `uint8ArrayToStringUtf8`. -/
structure SkyDBCaps where
  encodeSkylinkBase64 : List Nat → String
  bytesToUtf8 : List Nat → String
  formatSkylink : String → String

/-- `getSkyDBRegistryEntry`: the entry returned by the registry lookup,
with both a null entry and an entry carrying the empty-skylink deletion
sentinel collapsed to null. -/
def getSkyDBRegistryEntry (entryResult : Option RegistryEntry) : Option RegistryEntry :=
  match entryResult with
  | none => none
  | some entry =>
    if entry.data = EMPTY_SKYLINK then none else some entry

/-- The pair `parseDataLink` returns: the raw (unformatted) data link and
the formatted data link. -/
structure ParsedDataLink where
  rawDataLink : String
  dataLink : String
deriving Repr, DecidableEq

/-- `parseDataLink(data, legacy)` from skydb.js: with `legacy` set, data
of the base64-encoded length is decoded as UTF-8 text; data of the raw
skylink length is base64-encoded; any other length throws the validation
error. -/
def parseDataLink (caps : SkyDBCaps) (data : List Nat) (legacy : Bool) :
    Except SkyErr ParsedDataLink :=
  if legacy ∧ data.length = BASE64_ENCODED_SKYLINK_SIZE then
    let raw := caps.bytesToUtf8 data
    .ok { rawDataLink := raw, dataLink := caps.formatSkylink raw }
  else if data.length = RAW_SKYLINK_SIZE then
    let raw := caps.encodeSkylinkBase64 data
    .ok { rawDataLink := raw, dataLink := caps.formatSkylink raw }
  else
    .error (.validationFailed "entry.data" "returned entry data of skylink length")

/-- Modelled from the spec: `checkCachedDataLink` (skydb_v2, not among the
analysed sources) — true iff the caller supplied a cached data link and it
matches the freshly resolved raw data link. -/
def checkCachedDataLink (rawDataLink : String) (cachedDataLink : Option String) : Bool :=
  match cachedDataLink with
  | none => false
  | some c => rawDataLink == c

/-- `JSON_RESPONSE_VERSION = 2`. -/
def JSON_RESPONSE_VERSION : Int := 2

/-- The envelope `getOrCreateRegistryEntry` builds around the caller's
JSON before uploading: `{ _data: json, _v: JSON_RESPONSE_VERSION }`. -/
def setJSONFullData (json : JSValue) : JSValue :=
  .vObj [("_data", json), ("_v", .vNum JSON_RESPONSE_VERSION)]

/-- What `getJSON` returns to the caller. -/
structure GetJSONResult where
  data : Option JSValue
  dataLink : Option String

/-- `getJSON` from skydb.js, from the point where the registry lookup has
produced `entryResult`: collapse deleted/missing entries to the null
result, parse the entry data as a (possibly legacy) data link, honour the
cached-data-link short-circuit, otherwise download the content and apply
the envelope detection on `_data`/`_v`. The returned list records the
data links actually downloaded. -/
def getJSON (caps : SkyDBCaps) (dataKey : String) (entryResult : Option RegistryEntry)
    (cachedDataLink : Option String) (download : String → JSValue) :
    Except SkyErr (GetJSONResult × List String) :=
  match getSkyDBRegistryEntry entryResult with
  | none => .ok ({ data := none, dataLink := none }, [])
  | some entry =>
    match parseDataLink caps entry.data true with
    | .error e => .error e
    | .ok parsed =>
      if checkCachedDataLink parsed.rawDataLink cachedDataLink then
        .ok ({ data := none, dataLink := some parsed.dataLink }, [])
      else
        let fileData := download parsed.dataLink
        if jsTypeof fileData ≠ "object" ∨ isNull fileData then
          .error (.notJSON dataKey)
        else if ¬ (jsTruthy (objGet fileData "_data") ∧ jsTruthy (objGet fileData "_v")) then
          -- legacy data prior to skynet-js v4, returned as-is
          .ok ({ data := some fileData, dataLink := some parsed.dataLink },
               [parsed.dataLink])
        else
          let actualData := objGet fileData "_data"
          -- the source re-tests `data === null` (not actualData) here
          if jsTypeof actualData ≠ "object" ∨ isNull fileData then
            .error (.innerNotJSON dataKey)
          else
            .ok ({ data := some actualData, dataLink := some parsed.dataLink },
                 [parsed.dataLink])

/-- `getRawBytes` from skydb.js, from the point where the registry lookup
has produced `entryResult`: the same skeleton as `getJSON` but the entry
data is parsed with `legacy = false` and the downloaded bytes are
returned unmodified. -/
def getRawBytes (caps : SkyDBCaps) (dataKey : String) (entryResult : Option RegistryEntry)
    (cachedDataLink : Option String) (download : String → List Nat) :
    Except SkyErr ((Option (List Nat) × Option String) × List String) :=
  match getSkyDBRegistryEntry entryResult with
  | none => .ok ((none, none), [])
  | some entry =>
    match parseDataLink caps entry.data false with
    | .error e => .error e
    | .ok parsed =>
      if checkCachedDataLink parsed.rawDataLink cachedDataLink then
        .ok ((none, some parsed.dataLink), [])
      else
        .ok ((some (download parsed.dataLink), some parsed.dataLink),
             [parsed.dataLink])

/-- `getEntryData` from skydb.js, from the point where the registry
lookup has produced `entryResult`: null for missing/deleted entries, else
the raw entry data. No download is involved on this path. -/
def getEntryData (entryResult : Option RegistryEntry) : Option (List Nat) :=
  match getSkyDBRegistryEntry entryResult with
  | none => none
  | some entry => some entry.data

/-- The envelope is an object literal, hence of JS type "object". -/
theorem jsTypeof_setJSONFullData (json : JSValue) :
    jsTypeof (setJSONFullData json) = "object" := rfl

/-- The envelope is not null. -/
theorem isNull_setJSONFullData (json : JSValue) :
    isNull (setJSONFullData json) = false := rfl

/-- Reading `_data` off the envelope gives back the wrapped JSON. -/
theorem objGet_setJSONFullData_data (json : JSValue) :
    objGet (setJSONFullData json) "_data" = json := rfl

/-- Reading `_v` off the envelope gives the version tag 2. -/
theorem objGet_setJSONFullData_v (json : JSValue) :
    objGet (setJSONFullData json) "_v" = .vNum 2 := rfl

/-- A non-null object value is truthy. -/
theorem jsTruthy_of_object (v : JSValue) (hObj : jsTypeof v = "object")
    (hNull : isNull v = false) : jsTruthy v = true := by
  cases v <;> simp_all [jsTypeof, isNull, jsTruthy]

/-- C2: `setJSON` uploads the envelope `{_data: json, _v: 2}` around the
caller's JSON object, and a subsequent `getJSON` — reading the entry just
written (34 raw skylink bytes, not the deletion sentinel) with the
download returning the uploaded envelope — detects the `_data`/`_v`
fields, unwraps the envelope and returns the caller's JSON itself,
together with the entry's formatted data link. -/
theorem setJSON_getJSON_roundTrip (caps : SkyDBCaps) (dataKey : String) (json : JSValue)
    (entryData : List Nat) (revision : Nat) (download : String → JSValue)
    (hObj : jsTypeof json = "object") (hNotNull : isNull json = false)
    (hLen : entryData.length = RAW_SKYLINK_SIZE)
    (hNotSentinel : entryData ≠ EMPTY_SKYLINK)
    (hDownload : ∀ link, download link = setJSONFullData json) :
    setJSONFullData json = .vObj [("_data", json), ("_v", .vNum 2)] ∧
    getJSON caps dataKey (some ⟨dataKey, entryData, revision⟩) none download =
      .ok ({ data := some json,
             dataLink := some (caps.formatSkylink (caps.encodeSkylinkBase64 entryData)) },
           [caps.formatSkylink (caps.encodeSkylinkBase64 entryData)]) := by
  refine ⟨rfl, ?_⟩
  have htr : jsTruthy json = true := jsTruthy_of_object json hObj hNotNull
  have hne46 : entryData.length ≠ BASE64_ENCODED_SKYLINK_SIZE := by
    rw [hLen]; decide
  have hsz : ¬ RAW_SKYLINK_SIZE = BASE64_ENCODED_SKYLINK_SIZE := by decide
  have htr2 : jsTruthy (.vNum 2) = true := rfl
  simp [getJSON, getSkyDBRegistryEntry, hNotSentinel, parseDataLink, hLen, hne46,
        checkCachedDataLink, hDownload, jsTypeof_setJSONFullData,
        isNull_setJSONFullData, objGet_setJSONFullData_data,
        objGet_setJSONFullData_v, htr, htr2, hObj, hsz]

/-- Witness for C2: the round trip at the concrete object `{a: 1}` with a
concrete 34-byte data link and codec capabilities. -/
theorem setJSON_getJSON_roundTrip_witness :
    getJSON ⟨fun _ => "LINK", fun _ => "", fun s => s⟩ "key"
        (some ⟨"key", 1 :: List.replicate 33 0, 0⟩) none
        (fun _ => setJSONFullData (.vObj [("a", .vNum 1)])) =
      .ok ({ data := some (.vObj [("a", .vNum 1)]), dataLink := some "LINK" },
           ["LINK"]) :=
  (setJSON_getJSON_roundTrip ⟨fun _ => "LINK", fun _ => "", fun s => s⟩ "key"
    (.vObj [("a", .vNum 1)]) (1 :: List.replicate 33 0) 0
    (fun _ => setJSONFullData (.vObj [("a", .vNum 1)]))
    rfl rfl (by decide) (by decide) (fun _ => rfl)).2

/-- C5: when the registry lookup yields a null entry or an entry whose
data is the deletion sentinel, getJSON, getRawBytes and getEntryData all
return null data without downloading anything, and getJSON/getRawBytes
also return a null data link. -/
theorem deleted_or_missing_reads_spec (caps : SkyDBCaps) (dataKey : String)
    (entryResult : Option RegistryEntry) (cachedDataLink : Option String)
    (downloadJ : String → JSValue) (downloadB : String → List Nat)
    (h : entryResult = none ∨ ∃ e, entryResult = some e ∧ e.data = EMPTY_SKYLINK) :
    getJSON caps dataKey entryResult cachedDataLink downloadJ =
      .ok ({ data := none, dataLink := none }, []) ∧
    getRawBytes caps dataKey entryResult cachedDataLink downloadB =
      .ok ((none, none), []) ∧
    getEntryData entryResult = none := by
  have hnull : getSkyDBRegistryEntry entryResult = none := by
    rcases h with h | ⟨e, he, hd⟩
    · simp [h, getSkyDBRegistryEntry]
    · simp [he, getSkyDBRegistryEntry, hd]
  exact ⟨by simp [getJSON, hnull], by simp [getRawBytes, hnull],
    by simp [getEntryData, hnull]⟩

/-- Witness for C5 at a concrete entry carrying the deletion sentinel. -/
theorem deleted_or_missing_reads_spec_witness :
    getJSON ⟨fun _ => "", fun _ => "", fun s => s⟩ "key"
        (some ⟨"key", EMPTY_SKYLINK, 3⟩) none (fun _ => .vNull) =
      .ok ({ data := none, dataLink := none }, []) ∧
    getRawBytes ⟨fun _ => "", fun _ => "", fun s => s⟩ "key"
        (some ⟨"key", EMPTY_SKYLINK, 3⟩) none (fun _ => []) =
      .ok ((none, none), []) ∧
    getEntryData (some ⟨"key", EMPTY_SKYLINK, 3⟩) = none :=
  deleted_or_missing_reads_spec ⟨fun _ => "", fun _ => "", fun s => s⟩ "key"
    (some ⟨"key", EMPTY_SKYLINK, 3⟩) none (fun _ => .vNull) (fun _ => [])
    (.inr ⟨⟨"key", EMPTY_SKYLINK, 3⟩, rfl, rfl⟩)

/-- Concrete codec capabilities used by the C6 counterexample. -/
def demoCaps : SkyDBCaps := ⟨fun _ => "encoded", fun _ => "legacytext", fun s => s⟩

/-- Counterexample to C6: entry data of the legacy base64-encoded length
(46 bytes) is NOT accepted by getRawBytes — it calls `parseDataLink` with
`legacy = false`, so the 46-byte legacy encoding fails with the malformed
entry-data validation error instead of being accepted for backward
compatibility. -/
theorem getRawBytes_rejects_legacyLength :
    getRawBytes demoCaps "key" (some ⟨"key", List.replicate 46 1, 0⟩) none
        (fun _ => []) =
      .error (.validationFailed "entry.data" "returned entry data of skylink length") := by
  rfl

/-- C6 as amended: `parseDataLink` accepts raw-skylink-length (34-byte)
data with or without the legacy flag; legacy base64-length (46-byte) data
is accepted only when the legacy flag is set — getJSON sets it, but
getRawBytes does not, so 46-byte entry data makes getRawBytes fail with
the malformed-entry-data validation error; every other length fails for
both. -/
theorem parseDataLink_length_spec (caps : SkyDBCaps) (dataKey : String)
    (entry : RegistryEntry) (cached : Option String) (download : String → List Nat)
    (data : List Nat) :
    (data.length = RAW_SKYLINK_SIZE →
      parseDataLink caps data true =
        .ok ⟨caps.encodeSkylinkBase64 data,
             caps.formatSkylink (caps.encodeSkylinkBase64 data)⟩ ∧
      parseDataLink caps data false =
        .ok ⟨caps.encodeSkylinkBase64 data,
             caps.formatSkylink (caps.encodeSkylinkBase64 data)⟩) ∧
    (data.length = BASE64_ENCODED_SKYLINK_SIZE →
      parseDataLink caps data true =
        .ok ⟨caps.bytesToUtf8 data, caps.formatSkylink (caps.bytesToUtf8 data)⟩ ∧
      parseDataLink caps data false =
        .error (.validationFailed "entry.data" "returned entry data of skylink length")) ∧
    (data.length ≠ RAW_SKYLINK_SIZE → data.length ≠ BASE64_ENCODED_SKYLINK_SIZE →
      ∀ legacy, parseDataLink caps data legacy =
        .error (.validationFailed "entry.data" "returned entry data of skylink length")) ∧
    (entry.data.length = BASE64_ENCODED_SKYLINK_SIZE →
      getRawBytes caps dataKey (some entry) cached download =
        .error (.validationFailed "entry.data" "returned entry data of skylink length")) := by
  refine ⟨fun h34 => ?_, fun h46 => ?_, fun hn34 hn46 legacy => ?_, fun h46 => ?_⟩
  · have hne : data.length ≠ BASE64_ENCODED_SKYLINK_SIZE := by rw [h34]; decide
    have hsz : ¬ RAW_SKYLINK_SIZE = BASE64_ENCODED_SKYLINK_SIZE := by decide
    exact ⟨by simp [parseDataLink, h34, hne, hsz], by simp [parseDataLink, h34, hne, hsz]⟩
  · have hne : data.length ≠ RAW_SKYLINK_SIZE := by rw [h46]; decide
    have hsz : ¬ BASE64_ENCODED_SKYLINK_SIZE = RAW_SKYLINK_SIZE := by decide
    exact ⟨by simp [parseDataLink, h46, hne, hsz], by simp [parseDataLink, h46, hne, hsz]⟩
  · cases legacy <;> simp [parseDataLink, hn34, hn46]
  · have hsent : entry.data ≠ EMPTY_SKYLINK := by
      intro hc
      rw [hc] at h46
      revert h46
      decide
    have hne : entry.data.length ≠ RAW_SKYLINK_SIZE := by rw [h46]; decide
    simp [getRawBytes, getSkyDBRegistryEntry, hsent, parseDataLink, hne]

/-- Witness for the amended C6 at concrete 34-, 46- and 10-byte data. -/
theorem parseDataLink_length_spec_witness :
    parseDataLink demoCaps (List.replicate 34 7) true = .ok ⟨"encoded", "encoded"⟩ ∧
    parseDataLink demoCaps (List.replicate 46 7) true = .ok ⟨"legacytext", "legacytext"⟩ ∧
    parseDataLink demoCaps (List.replicate 46 7) false =
      .error (.validationFailed "entry.data" "returned entry data of skylink length") ∧
    parseDataLink demoCaps (List.replicate 10 7) true =
      .error (.validationFailed "entry.data" "returned entry data of skylink length") ∧
    getRawBytes demoCaps "key" (some ⟨"key", List.replicate 46 7, 0⟩) none (fun _ => []) =
      .error (.validationFailed "entry.data" "returned entry data of skylink length") := by
  have h34 := parseDataLink_length_spec demoCaps "key" ⟨"key", List.replicate 46 7, 0⟩
    none (fun _ => []) (List.replicate 34 7)
  have h46 := parseDataLink_length_spec demoCaps "key" ⟨"key", List.replicate 46 7, 0⟩
    none (fun _ => []) (List.replicate 46 7)
  have h10 := parseDataLink_length_spec demoCaps "key" ⟨"key", List.replicate 46 7, 0⟩
    none (fun _ => []) (List.replicate 10 7)
  exact ⟨(h34.1 (by decide)).1, (h46.2.1 (by decide)).1, (h46.2.1 (by decide)).2,
    h10.2.2.1 (by decide) (by decide) true, h46.2.2.2 (by decide)⟩

-- ==============================
-- Caller-input validation before network calls (setEntryData, C7)
-- ==============================

/-- A hexadecimal digit, as matched by the `isHexString` regex. -/
def isHexDigitChar (c : Char) : Bool :=
  ('0' ≤ c && c ≤ '9') || ('A' ≤ c && c ≤ 'F') || ('a' ≤ c && c ≤ 'f')

/-- `isHexString` from utils/string: every character is a hex digit (the
regex also accepts the empty string). -/
def isHexString (s : String) : Bool := s.toList.all isHexDigitChar

/-- `validateString`: the argument is of JS type string. -/
def validateStringArg (v : JSValue) : Bool :=
  match v with
  | .vStr _ => true
  | _ => false

/-- `validateHexString`: a string whose characters are hex digits. -/
def validateHexStringArg (v : JSValue) : Bool :=
  match v with
  | .vStr s => isHexString s
  | _ => false

/-- `validateUint8Array`: the argument is a `Uint8Array`. -/
def validateUint8ArrayArg (v : JSValue) : Bool :=
  match v with
  | .vBytes _ => true
  | _ => false

/-- The own enumerable property names a `for-in` loop visits: an object's
field names; index strings for arrays and byte arrays. -/
def objKeys : JSValue → List String
  | .vObj fields => fields.map Prod.fst
  | .vArr elems => (List.range elems.length).map toString
  | .vBytes bytes => (List.range bytes.length).map toString
  | _ => []

/-- `validateOptionalObject(name, value, kind, model)` from
utils/validation.js: a falsy value is accepted (the object is optional);
otherwise the value must be a non-null object and every one of its
properties must exist in the model object, else the unexpected-property
error is thrown for the first offender. -/
def validateOptionalObject (value : JSValue) (modelKeys : List String) :
    Except SkyErr Unit :=
  if ¬ jsTruthy value then
    .ok ()
  else if jsTypeof value ≠ "object" then
    .error (.validationFailed "customOptions" "type object")
  else if isNull value then
    .error (.validationFailed "customOptions" "non-null")
  else
    match (objKeys value).find? (fun p => ! modelKeys.contains p) with
    | some p => .error (.unexpectedOption "customOptions" p)
    | none => .ok ()

/-- Coercions the engine applies once an argument has passed its type
check. -/
def jsStr : JSValue → String
  | .vStr s => s
  | _ => ""

/-- The byte list of a value known to be a `Uint8Array`. -/
def jsBytes : JSValue → List Nat
  | .vBytes b => b
  | _ => []

/-- The field list of a value known to be a plain object (`undefined`
spreads as no fields). -/
def jsFields : JSValue → List (String × JSValue)
  | .vObj fields => fields
  | _ => []

/-- Modelled from the spec: `MAX_ENTRY_LENGTH = 70`, the entry-data byte
limit enforced by `validateEntryData` (skydb_v2, not among the analysed
sources). -/
def MAX_ENTRY_LENGTH : Nat := 70

/-- Modelled from the spec: `validateEntryData` (skydb_v2) — entry data
must be at most 70 bytes, and may equal the deletion sentinel only when
the `allowDeletionEntryData` option is set. -/
def validateEntryData (data : List Nat) (allowDeletionEntryData : Bool) :
    Except SkyErr Unit :=
  if data.length > MAX_ENTRY_LENGTH then
    .error (.validationFailed "data" "Uint8Array of length at most 70")
  else if ¬ allowDeletionEntryData ∧ data = DELETION_ENTRY_DATA then
    .error (.validationFailed "data" "not the deletion sentinel")
  else
    .ok ()

/-- One network interaction of the engine, recorded in order. -/
inductive NetCall where
  | registryRead (publicKey dataKey : String)
  | registryWrite (publicKey dataKey : String) (data : List Nat) (revision : Nat)
deriving Repr, DecidableEq

/-- The ambient pieces `setEntryData` runs against: the default option
object's keys (skydb_v2's `DEFAULT_SET_ENTRY_DATA_OPTIONS`, modelled from
the spec as an abstract field list), the client-level options, the
tweetnacl public-key derivation (kept abstract) and the entry the portal
returns for the registry read. -/
structure SetEntryDataEnv where
  defaultSetEntryDataOptions : List (String × JSValue)
  clientOptions : List (String × JSValue)
  publicKeyFromPrivate : String → String
  portalEntry : Option RegistryEntry

/-- `setEntryData` from skydb.js with its network effects explicit: the
four caller-input validations run first and return with an empty call
trace on failure; only then is the registry read issued
(`getNextRegistryEntry`), the next revision computed, and the registry
write (`registry.setEntry`) issued. -/
def setEntryData (env : SetEntryDataEnv)
    (privateKey dataKey data customOptions : JSValue) :
    Except SkyErr (List Nat) × List NetCall :=
  if ¬ validateHexStringArg privateKey then
    (.error (.validationFailed "privateKey" "a hex-encoded string"), [])
  else if ¬ validateStringArg dataKey then
    (.error (.validationFailed "dataKey" "type string"), [])
  else if ¬ validateUint8ArrayArg data then
    (.error (.validationFailed "data" "type Uint8Array"), [])
  else
    match validateOptionalObject customOptions
        (env.defaultSetEntryDataOptions.map Prod.fst) with
    | .error e => (.error e, [])
    | .ok _ =>
      let allowDeletion := jsTruthy ((objectSpreadLookup
          [env.defaultSetEntryDataOptions, env.clientOptions, jsFields customOptions]
          "allowDeletionEntryData").getD .vUndefined)
      match validateEntryData (jsBytes data) allowDeletion with
      | .error e => (.error e, [])
      | .ok _ =>
        let publicKey := env.publicKeyFromPrivate (jsStr privateKey)
        let readCall := NetCall.registryRead publicKey (jsStr dataKey)
        match getNextRevisionFromEntry env.portalEntry with
        | .error e => (.error e, [readCall])
        | .ok revision =>
          (.ok (jsBytes data),
           [readCall,
            .registryWrite publicKey (jsStr dataKey) (jsBytes data) revision])

/-- The caller-input failures C7 describes: a wrong argument type, an
options object that fails `validateOptionalObject` (wrong type or an
unrecognized key), or entry data over the 70-byte limit. -/
def setEntryDataInputInvalid (env : SetEntryDataEnv)
    (privateKey dataKey data customOptions : JSValue) : Prop :=
  validateHexStringArg privateKey = false ∨
  validateStringArg dataKey = false ∨
  validateUint8ArrayArg data = false ∨
  (∃ e, validateOptionalObject customOptions
      (env.defaultSetEntryDataOptions.map Prod.fst) = .error e) ∨
  (jsBytes data).length > MAX_ENTRY_LENGTH

/-- C7: every caller-input validation failure (wrong argument type,
unrecognized option key, entry data over 70 bytes) makes `setEntryData`
fail with an empty network trace — no registry read or write is issued;
writing 71 bytes in particular issues no call, while a valid call with
exactly 70 bytes passes validation and issues the registry read followed
by the registry write. -/
theorem setEntryData_validation_spec (env : SetEntryDataEnv)
    (privateKey dataKey data customOptions : JSValue)
    (bytes : List Nat) (revision : Nat) :
    (setEntryDataInputInvalid env privateKey dataKey data customOptions →
      (∃ e, (setEntryData env privateKey dataKey data customOptions).1 = .error e) ∧
      (setEntryData env privateKey dataKey data customOptions).2 = []) ∧
    (data = .vBytes bytes → bytes.length = 71 →
      (setEntryData env privateKey dataKey data customOptions).2 = []) ∧
    (validateHexStringArg privateKey = true → validateStringArg dataKey = true →
      data = .vBytes bytes → bytes.length = 70 →
      validateOptionalObject customOptions
        (env.defaultSetEntryDataOptions.map Prod.fst) = .ok () →
      getNextRevisionFromEntry env.portalEntry = .ok revision →
      setEntryData env privateKey dataKey data customOptions =
        (.ok bytes,
         [.registryRead (env.publicKeyFromPrivate (jsStr privateKey)) (jsStr dataKey),
          .registryWrite (env.publicKeyFromPrivate (jsStr privateKey)) (jsStr dataKey)
            bytes revision])) := by
  have hmain : setEntryDataInputInvalid env privateKey dataKey data customOptions →
      (∃ e, (setEntryData env privateKey dataKey data customOptions).1 = .error e) ∧
      (setEntryData env privateKey dataKey data customOptions).2 = [] := by
    intro h
    by_cases h1 : validateHexStringArg privateKey = true
    · by_cases h2 : validateStringArg dataKey = true
      · by_cases h3 : validateUint8ArrayArg data = true
        · cases h4 : validateOptionalObject customOptions
              (env.defaultSetEntryDataOptions.map Prod.fst) with
          | error e =>
            refine ⟨⟨e, ?_⟩, ?_⟩ <;> simp [setEntryData, h1, h2, h3, h4]
          | ok u =>
            have h5 : (jsBytes data).length > MAX_ENTRY_LENGTH := by
              rcases h with h | h | h | ⟨e, he⟩ | h
              · exact absurd h1 (by simp [h])
              · exact absurd h2 (by simp [h])
              · exact absurd h3 (by simp [h])
              · rw [h4] at he; cases he
              · exact h
            have hv : ∀ allow, validateEntryData (jsBytes data) allow =
                .error (.validationFailed "data" "Uint8Array of length at most 70") := by
              intro allow; simp [validateEntryData, h5]
            refine ⟨⟨.validationFailed "data" "Uint8Array of length at most 70", ?_⟩, ?_⟩ <;>
              simp [setEntryData, h1, h2, h3, h4, hv]
        · refine ⟨⟨.validationFailed "data" "type Uint8Array", ?_⟩, ?_⟩ <;>
            simp [setEntryData, h1, h2, h3]
      · refine ⟨⟨.validationFailed "dataKey" "type string", ?_⟩, ?_⟩ <;>
          simp [setEntryData, h1, h2]
    · refine ⟨⟨.validationFailed "privateKey" "a hex-encoded string", ?_⟩, ?_⟩ <;>
        simp [setEntryData, h1]
  refine ⟨hmain, fun hd hl => ?_, fun h1 h2 hd hl h4 hrev => ?_⟩
  · have hlen : (jsBytes data).length > MAX_ENTRY_LENGTH := by
      rw [hd]; simp [jsBytes, hl, MAX_ENTRY_LENGTH]
    exact (hmain (Or.inr (Or.inr (Or.inr (Or.inr hlen))))).2
  · subst hd
    have hsent : bytes ≠ DELETION_ENTRY_DATA := by
      intro hc
      have : bytes.length = DELETION_ENTRY_DATA.length := by rw [hc]
      rw [hl] at this
      revert this
      decide
    have hlen : ¬ bytes.length > MAX_ENTRY_LENGTH := by
      rw [hl]; decide
    have hv : ∀ allow, validateEntryData bytes allow = .ok () := by
      intro allow; simp [validateEntryData, hlen, hsent]
    simp [setEntryData, h1, h2, h4, hv, hrev, validateUint8ArrayArg, jsBytes]

/-- Witness for C7: concrete calls against a concrete environment — an
unrecognized option key and a 71-byte write each fail with no network
call; a 70-byte write passes validation and issues the read then the
write. -/
theorem setEntryData_validation_spec_witness :
    ((∃ e, (setEntryData ⟨[("allowDeletionEntryData", .vBool false)], [],
        fun _ => "PUB", some ⟨"dk", [1], 5⟩⟩
        (.vStr "abc123") (.vStr "dk") (.vBytes [1, 2])
        (.vObj [("bogus", .vNum 1)])).1 = .error e) ∧
      (setEntryData ⟨[("allowDeletionEntryData", .vBool false)], [],
        fun _ => "PUB", some ⟨"dk", [1], 5⟩⟩
        (.vStr "abc123") (.vStr "dk") (.vBytes [1, 2])
        (.vObj [("bogus", .vNum 1)])).2 = []) ∧
    (setEntryData ⟨[("allowDeletionEntryData", .vBool false)], [],
        fun _ => "PUB", some ⟨"dk", [1], 5⟩⟩
        (.vStr "abc123") (.vStr "dk") (.vBytes (List.replicate 71 9))
        .vUndefined).2 = [] ∧
    setEntryData ⟨[("allowDeletionEntryData", .vBool false)], [],
        fun _ => "PUB", some ⟨"dk", [1], 5⟩⟩
        (.vStr "abc123") (.vStr "dk") (.vBytes (List.replicate 70 9))
        .vUndefined =
      (.ok (List.replicate 70 9),
       [.registryRead "PUB" "dk",
        .registryWrite "PUB" "dk" (List.replicate 70 9) 6]) := by
  refine ⟨?_, ?_, ?_⟩
  · exact (setEntryData_validation_spec ⟨[("allowDeletionEntryData", .vBool false)], [],
      fun _ => "PUB", some ⟨"dk", [1], 5⟩⟩ (.vStr "abc123") (.vStr "dk")
      (.vBytes [1, 2]) (.vObj [("bogus", .vNum 1)]) [1, 2] 6).1
      (Or.inr (Or.inr (Or.inr (Or.inl ⟨.unexpectedOption "customOptions" "bogus", rfl⟩))))
  · exact (setEntryData_validation_spec ⟨[("allowDeletionEntryData", .vBool false)], [],
      fun _ => "PUB", some ⟨"dk", [1], 5⟩⟩ (.vStr "abc123") (.vStr "dk")
      (.vBytes (List.replicate 71 9)) .vUndefined (List.replicate 71 9) 6).2.1
      rfl (by decide)
  · exact (setEntryData_validation_spec ⟨[("allowDeletionEntryData", .vBool false)], [],
      fun _ => "PUB", some ⟨"dk", [1], 5⟩⟩ (.vStr "abc123") (.vStr "dk")
      (.vBytes (List.replicate 70 9)) .vUndefined (List.replicate 70 9) 6).2.2
      rfl rfl rfl rfl rfl rfl
